import Mathlib

/-!
Verification development for the cdips-pipeline difference-imaging code
(`imagesubphot.py` and `autoimagesub.py`).

The Python source is shallowly embedded: numeric per-frame metrics become
`Int` values (floating-point metrics enter only through order
comparisons, so an order-isomorphic integer scaling is used; `Option Int`
with `none` for NaN, since every NaN comparison in numpy is false), numpy index arrays become `List Nat`,
fallible calls become `Except`/`Option` values, and the filesystem /
database effects of a function are made explicit as returned data
(lists of files moved or copied, a flag for a registry insert).
-/

/-- Insertion of an element into a list, before the first element that
the Boolean comparator puts no earlier than it. -/
def insertBy (le : α → α → Bool) (a : α) : List α → List α
  | [] => [a]
  | b :: l => if le a b then a :: b :: l else b :: insertBy le a l

/-- Structurally recursive stable insertion sort by a Boolean comparator;
used to embed `np.argsort` (and the sorting stages of the photref
selector) so that concrete runs reduce inside the kernel. -/
def sortBy (le : α → α → Bool) : List α → List α
  | [] => []
  | a :: l => insertBy le a (sortBy le l)

theorem mem_insertBy (le : α → α → Bool) (a x : α) (l : List α) :
    x ∈ insertBy le a l ↔ x = a ∨ x ∈ l := by
  induction l with
  | nil => simp [insertBy]
  | cons b l ih =>
    by_cases h : le a b = true
    · simp [insertBy, h]
    · simp [insertBy, h, ih]
      tauto

theorem length_insertBy (le : α → α → Bool) (a : α) (l : List α) :
    (insertBy le a l).length = l.length + 1 := by
  induction l with
  | nil => simp [insertBy]
  | cons b l ih =>
    by_cases h : le a b = true
    · simp [insertBy, h]
    · simp [insertBy, h, ih]

theorem length_sortBy (le : α → α → Bool) (l : List α) :
    (sortBy le l).length = l.length := by
  induction l with
  | nil => simp [sortBy]
  | cons a l ih => simp [sortBy, length_insertBy, ih]

theorem mem_sortBy (le : α → α → Bool) (x : α) (l : List α) :
    x ∈ sortBy le l ↔ x ∈ l := by
  induction l with
  | nil => simp [sortBy]
  | cons a l ih => simp [sortBy, mem_insertBy, ih]

namespace ISM

/-- Ascending argsort of the values `key 0, ..., key (n-1)`: the list of
indices `0..n-1` ordered so that the key values are nondecreasing.
Embeds `np.argsort(v)`; ties keep index order (all inputs we evaluate on
have pairwise distinct keys, where every argsort order agrees). -/
def argsortAsc (n : Nat) (key : Nat → Int) : List Nat :=
  sortBy (fun i j => key i ≤ key j) (List.range n)

/-- Descending argsort, embedding `np.argsort(v)[::-1]` from the source:
the ascending argsort, reversed. -/
def argsortDesc (n : Nat) (key : Nat → Int) : List Nat :=
  (argsortAsc n key).reverse

/-- Sorted intersection of two duplicate-free index lists drawn from
`0..n-1`, embedding `np.intersect1d(a, b, assume_unique=True)`, whose
result is the common values in ascending order. -/
def intersect1d (n : Nat) (a b : List Nat) : List Nat :=
  (List.range n).filter (fun i => a.contains i && b.contains i)

/-- Embeds `select_astromref_frame` (imagesubphot.py lines 237-337), the
part after the per-frame metric arrays `median_sval`, `median_dval`,
`median_background`, `good_detections` have been collected for the `n`
frames with readable photometry and source-list sidecars.  Returns the
index into `goodframes` of the selected reference, or `none`.

The source ranks by S descending, |D| ascending, background ascending and
detection count descending, truncates each ranking to its top 200, then
tries in order: the intersection of all four (`best_frame_ind`), the
intersection of S, D and ndet (`sdndet_ind`), the intersection of S and D
(`sd_ind`), and finally the S ranking alone (`median_sval_ind`). -/
def select_astromref_frame (n : Nat) (sval dval bg ndet : Nat → Int) :
    Option Nat :=
  let median_sval_ind := (argsortDesc n sval).take 200
  let median_dval_ind := (argsortAsc n (fun i => |dval i|)).take 200
  let median_background_ind := (argsortAsc n bg).take 200
  let good_detections_ind := (argsortDesc n ndet).take 200
  let sd_ind := intersect1d n median_sval_ind median_dval_ind
  let best_frame_ind :=
    intersect1d n sd_ind
      (intersect1d n median_background_ind good_detections_ind)
  let sdndet_ind := intersect1d n sd_ind good_detections_ind
  match best_frame_ind with
  | i :: _ => some i
  | [] =>
    match sdndet_ind with
    | i :: _ => some i
    | [] =>
      match sd_ind with
      | i :: _ => some i
      | [] =>
        match median_sval_ind with
        | i :: _ => some i
        | [] => none

/-- Selection procedure following the claim's words: intersect the four
top-200 sets; when the intersection is empty, relax by dropping the
detection-count constraint first (leaving S, |D| and background), then
the background constraint (leaving S and |D|), then the ellipticity
constraint, falling back to S-only. -/
def selectAstromrefClaimed (n : Nat) (sval dval bg ndet : Nat → Int) :
    Option Nat :=
  let topS := (argsortDesc n sval).take 200
  let topD := (argsortAsc n (fun i => |dval i|)).take 200
  let topB := (argsortAsc n bg).take 200
  let topN := (argsortDesc n ndet).take 200
  let allFour := (List.range n).filter
    (fun i => topS.contains i && topD.contains i &&
              topB.contains i && topN.contains i)
  let dropNdet := (List.range n).filter
    (fun i => topS.contains i && topD.contains i && topB.contains i)
  let dropBgToo := (List.range n).filter
    (fun i => topS.contains i && topD.contains i)
  match allFour with
  | i :: _ => some i
  | [] =>
    match dropNdet with
    | i :: _ => some i
    | [] =>
      match dropBgToo with
      | i :: _ => some i
      | [] =>
        match topS with
        | i :: _ => some i
        | [] => none

/-- Selection procedure following the amended claim: intersect the four
top-200 sets; when that intersection is empty, relax by dropping the
background constraint first (leaving S, |D| and detection count), then
the detection-count constraint (leaving S and |D|), then the ellipticity
constraint, falling back to S-only; return the first frame of the first
non-empty set in that priority order, and `none` only when the S ranking
itself is empty. -/
def selectAstromrefAmended (n : Nat) (sval dval bg ndet : Nat → Int) :
    Option Nat :=
  let topS := (argsortDesc n sval).take 200
  let topD := (argsortAsc n (fun i => |dval i|)).take 200
  let topB := (argsortAsc n bg).take 200
  let topN := (argsortDesc n ndet).take 200
  let allFour := (List.range n).filter
    (fun i => (topS.contains i && topD.contains i) &&
              (topB.contains i && topN.contains i))
  let dropBg := (List.range n).filter
    (fun i => (topS.contains i && topD.contains i) && topN.contains i)
  let dropNdetToo := (List.range n).filter
    (fun i => topS.contains i && topD.contains i)
  match allFour with
  | i :: _ => some i
  | [] =>
    match dropBg with
    | i :: _ => some i
    | [] =>
      match dropNdetToo with
      | i :: _ => some i
      | [] =>
        match topS with
        | i :: _ => some i
        | [] => none

/-- S metric of the 267-frame set refuting the claimed relaxation order:
S strictly increasing with index, so the S-descending top-200 is indices
267-1 down to 67 and the S top-200 set is 67..266. -/
def cexSval : Nat → Int := fun i => (i : Int)

/-- D metric of the refuting frame set: |D| strictly increasing with
index, so the |D|-ascending top-200 set is indices 0..199.  The S and D
top-200 sets intersect in 67..199. -/
def cexDval : Nat → Int := fun i => (i : Int)

/-- Background metric of the refuting frame set: equal to the index,
except that indices 68..134 carry an offset of 1000.  The
background-ascending top-200 therefore excludes exactly 68..134, so no
frame of the S-and-D intersection 67..199 survives both the background
and the detection-count cut, while 67 and 135..199 survive the
background cut. -/
def cexBg : Nat → Int :=
  fun i => if 68 ≤ i ∧ i ≤ 134 then 1000 + (i : Int) else (i : Int)

/-- Detection-count metric of the refuting frame set: 1000 plus the
index, except that indices 0, 67 and 135..199 drop the offset.  The
detection-count-descending top-200 therefore excludes exactly
{0, 67, 135..199}, so of the S-and-D intersection 67..199 exactly
68..134 survive the detection-count cut. -/
def cexNdet : Nat → Int :=
  fun i => if i = 0 ∨ i = 67 ∨ (135 ≤ i ∧ i ≤ 199) then (i : Int)
           else 1000 + (i : Int)

theorem contains_filter_range (n : Nat) (p : Nat → Bool) {i : Nat}
    (hi : i ∈ List.range n) :
    ((List.range n).filter p).contains i = p i := by
  have hmem : (i ∈ (List.range n).filter p) ↔ (p i = true) := by
    simp [List.mem_filter, hi]
  calc ((List.range n).filter p).contains i
      = decide (i ∈ (List.range n).filter p) := by
        simp [List.contains, List.elem_eq_mem]
    _ = decide (p i = true) := decide_eq_decide.mpr hmem
    _ = p i := by cases h : p i <;> simp [h]

theorem intersect1d_eq_filter (n : Nat) (a b : List Nat) :
    intersect1d n a b =
      (List.range n).filter (fun i => a.contains i && b.contains i) := rfl

theorem filter_contains_both (n : Nat) (p q : Nat → Bool) :
    (List.range n).filter
      (fun i => ((List.range n).filter p).contains i &&
                ((List.range n).filter q).contains i) =
    (List.range n).filter (fun i => p i && q i) := by
  apply List.filter_congr
  intro i hi
  rw [contains_filter_range n p hi, contains_filter_range n q hi]

theorem filter_contains_left (n : Nat) (p : Nat → Bool) (a : List Nat) :
    (List.range n).filter
      (fun i => ((List.range n).filter p).contains i && a.contains i) =
    (List.range n).filter (fun i => p i && a.contains i) := by
  apply List.filter_congr
  intro i hi
  rw [contains_filter_range n p hi]

theorem argsortAsc_length (n : Nat) (key : Nat → Int) :
    (argsortAsc n key).length = n := by
  simp [argsortAsc, length_sortBy]

set_option maxRecDepth 100000 in
set_option maxHeartbeats 4000000 in
/-- C1 (counterexample): the claimed relaxation order (drop detection
count first, then background, then ellipticity) disagrees with
`select_astromref_frame` on a concrete 267-frame metric set.  There the
four-way intersection is empty; the code then tries S∩D∩ndet and picks
frame 68, while the claimed order tries S∩D∩background first and picks
frame 67. -/
theorem select_astromref_claim_counterexample :
    select_astromref_frame 267 cexSval cexDval cexBg cexNdet = some 68 ∧
    selectAstromrefClaimed 267 cexSval cexDval cexBg cexNdet = some 67 := by
  constructor
  · decide
  · decide

/-- C1 (amended): `select_astromref_frame` intersects the four top-200
ranking sets and, when that intersection is empty, relaxes by dropping
the background constraint first, then the detection-count constraint,
then the ellipticity constraint, falling back to S-only, returning the
first frame of the first non-empty set in that priority order; it
returns none exactly when the frame set is empty (equivalently, when
the S ranking itself is empty). -/
theorem select_astromref_frame_relaxation (n : Nat)
    (sval dval bg ndet : Nat → Int) :
    select_astromref_frame n sval dval bg ndet =
      selectAstromrefAmended n sval dval bg ndet ∧
    (select_astromref_frame n sval dval bg ndet = none ↔ n = 0) := by
  have heq : select_astromref_frame n sval dval bg ndet =
      selectAstromrefAmended n sval dval bg ndet := by
    simp only [select_astromref_frame, selectAstromrefAmended,
      intersect1d_eq_filter, filter_contains_both, filter_contains_left]
  refine ⟨heq, ?_, ?_⟩
  · intro hnone
    by_contra hn
    have hlen : ((argsortDesc n sval).take 200).length = min 200 n := by
      simp [argsortDesc, argsortAsc_length]
    have hne : ((argsortDesc n sval).take 200) ≠ [] := by
      intro h
      rw [h] at hlen
      simp at hlen
      omega
    rw [heq] at hnone
    revert hnone
    simp only [selectAstromrefAmended]
    split
    · simp
    · split
      · simp
      · split
        · simp
        · split
          · simp
          · rename_i hempty
            exact absurd hempty hne
  · intro hn
    subst hn
    rfl

end ISM

namespace AIS

/-- Python exceptions that the embedded functions of autoimagesub.py can
raise or catch. -/
inductive PyErr
  | nameError
  | typeError
  | integrityError
  | valueError
  | dbError
  | unboundLocal
deriving DecidableEq, Repr

/-- Embeds `pool.map(worker, tasks)` followed by `pool.close/join`: the
workers run independently, the results come back in input order, and an
exception raised out of any worker is re-raised in the parent, aborting
the whole batch and dropping every other item's result. -/
def pool_map (f : τ → Except PyErr ρ) : List τ → Except PyErr (List ρ)
  | [] => .ok []
  | t :: ts =>
    match f t with
    | .error e => .error e
    | .ok r =>
      match pool_map f ts with
      | .error e => .error e
      | .ok rs => .ok (r :: rs)

/-- Environment of one `frames_astromref_worker` call: everything the
worker learns from the filesystem, the refinfo database and the external
`grmatch`/`fitrans` tools. -/
structure FrameEnv where
  /-- an exception raised while reading the frame header or unpacking
  the task (modelled as thrown at the start of the `try` block) -/
  raised : Option PyErr
  /-- `FRAMEREGEX` matched the basename and the frame's fistar exists -/
  headerOk : Bool
  /-- `get_astromref` found an active astrometric reference row (when it
  does not, it returns `None` and indexing `None` raises inside the
  worker's `try`) -/
  arefOk : Bool
  /-- result of `ism.astromref_shift_worker`: the itrans path when the
  shift-transform calculation succeeded, otherwise `none` -/
  shiftItrans : Option String
  /-- result of `ism.frame_to_astromref_worker`: the -xtrns.fits path
  when applying the transform succeeded, otherwise `none` -/
  shiftedFrame : Option String
  /-- verdict of `check_frame_warping`: `true` when the shifted frame is
  not warped -/
  notwarped : Bool
  /-- the files matching `*basename*.*` beside the shifted frame (the
  frame and all its sidecars) -/
  sidecarGlob : List String
deriving DecidableEq, Repr

/-- Result of one difference-imaging alignment worker: the value the
worker returns to `pool.map`, plus the files it moved into the
`badframes` quarantine subdirectory. -/
structure WorkerOutcome where
  result : String × Option String
  movedToBadframes : List String
deriving DecidableEq, Repr

/-- Body of `frames_astromref_worker` (autoimagesub.py lines 452-594),
the part inside its `try`: resolve the frame identity, fetch the active
astromref, calculate and apply the shift, then (when `warpcheck` is on)
quarantine warped frames. -/
def frames_astromref_worker_body (env : FrameEnv) (frame : String)
    (warpcheck : Bool) : Except PyErr WorkerOutcome :=
  match env.raised with
  | some e => .error e
  | none =>
    if env.headerOk then
      if env.arefOk then
        match env.shiftItrans with
        | none => .ok ⟨(frame, none), []⟩
        | some _ =>
          match env.shiftedFrame with
          | none => .ok ⟨(frame, none), []⟩
          | some sf =>
            if warpcheck then
              if env.notwarped then .ok ⟨(frame, some sf), []⟩
              else .ok ⟨(frame, none), env.sidecarGlob⟩
            else .ok ⟨(frame, some sf), []⟩
      else .ok ⟨(frame, none), []⟩
    else .ok ⟨(frame, none), []⟩

/-- Whole `frames_astromref_worker`: the body wrapped in the worker's
`try`/`except`, which turns any exception into `(frame, None)` with no
files moved. -/
def frames_astromref_worker (env : FrameEnv) (frame : String)
    (warpcheck : Bool) : WorkerOutcome :=
  match frames_astromref_worker_body env frame warpcheck with
  | .ok r => r
  | .error _ => ⟨(frame, none), []⟩

/-- Embeds `framelist_make_xtrnsfits` (autoimagesub.py lines 598-628):
`pool.map` of `frames_astromref_worker` over the existing input frames,
collected into the frame-to-result association. -/
def framelist_make_xtrnsfits (tasks : List (FrameEnv × String))
    (warpcheck : Bool) : Except PyErr (List WorkerOutcome) :=
  pool_map
    (fun t =>
      match frames_astromref_worker_body t.1 t.2 warpcheck with
      | .ok r => .ok r
      | .error _ => .ok ⟨(t.2, none), []⟩)
    tasks

theorem framelist_make_xtrnsfits_never_aborts
    (tasks : List (FrameEnv × String)) (warpcheck : Bool) :
    framelist_make_xtrnsfits tasks warpcheck =
      .ok (tasks.map (fun t => frames_astromref_worker t.1 t.2 warpcheck)) := by
  induction tasks with
  | nil => rfl
  | cons t ts ih =>
    simp only [framelist_make_xtrnsfits, pool_map] at ih ⊢
    cases h : frames_astromref_worker_body t.1 t.2 warpcheck with
    | ok r =>
      simp [h, ih, frames_astromref_worker, List.map_cons]
    | error e =>
      simp [h, ih, frames_astromref_worker, List.map_cons]

/-- C6: with warp checking enabled, `frames_astromref_worker` handles
its three failure modes distinctly.  When the shift transform is
computed and applied successfully but the warp check fails, the frame
and all its sidecar files (the `*basename*.*` glob) are moved to the
badframes quarantine and the worker returns the frame paired with
`None`; when the shift-transform calculation fails, or the transform
application fails, the worker returns the frame paired with `None`
without moving anything. -/
theorem frames_astromref_worker_failure_modes (env : FrameEnv)
    (frame : String) :
    (env.raised = none → env.headerOk = true → env.arefOk = true →
      ∀ it sf, env.shiftItrans = some it → env.shiftedFrame = some sf →
        env.notwarped = false →
        frames_astromref_worker env frame true =
          ⟨(frame, none), env.sidecarGlob⟩) ∧
    (env.raised = none → env.shiftItrans = none →
      frames_astromref_worker env frame true = ⟨(frame, none), []⟩) ∧
    (env.raised = none → env.shiftedFrame = none →
      frames_astromref_worker env frame true = ⟨(frame, none), []⟩) := by
  refine ⟨?_, ?_, ?_⟩
  · intro hr hh ha it sf hit hsf hw
    simp [frames_astromref_worker, frames_astromref_worker_body,
      hr, hh, ha, hit, hsf, hw]
  · intro hr hit
    simp only [frames_astromref_worker, frames_astromref_worker_body, hr, hit]
    by_cases hh : env.headerOk = true
    · by_cases ha : env.arefOk = true
      · simp [hh, ha]
      · simp [hh, ha]
    · simp [hh]
  · intro hr hsf
    simp only [frames_astromref_worker, frames_astromref_worker_body, hr, hsf]
    by_cases hh : env.headerOk = true
    · by_cases ha : env.arefOk = true
      · cases hit : env.shiftItrans with
        | none => simp [hh, ha, hit]
        | some it => simp [hh, ha, hit, hsf]
      · simp [hh, ha]
    · simp [hh]

/-- Witness for C6: a concrete environment where the warp check fails
after a successful shift (files quarantined, null result), and concrete
environments where the shift calculation or the shift application fails
(null result, nothing quarantined). -/
theorem frames_astromref_worker_failure_modes_witness :
    frames_astromref_worker
      ⟨none, true, true, some "1-377741_5.itrans", some "1-377741_5-xtrns.fits",
       false, ["1-377741_5.fits", "1-377741_5.fistar", "1-377741_5.fiphot"]⟩
      "1-377741_5.fits" true =
      ⟨("1-377741_5.fits", none),
       ["1-377741_5.fits", "1-377741_5.fistar", "1-377741_5.fiphot"]⟩ ∧
    frames_astromref_worker
      ⟨none, true, true, none, none, true, ["x"]⟩ "1-377741_5.fits" true =
      ⟨("1-377741_5.fits", none), []⟩ ∧
    frames_astromref_worker
      ⟨none, true, true, some "1-377741_5.itrans", none, true, ["x"]⟩
      "1-377741_5.fits" true =
      ⟨("1-377741_5.fits", none), []⟩ := by
  refine ⟨?_, ?_, ?_⟩
  · exact (frames_astromref_worker_failure_modes _ _).1 rfl rfl rfl
      "1-377741_5.itrans" "1-377741_5-xtrns.fits" rfl rfl rfl
  · exact (frames_astromref_worker_failure_modes _ _).2.1 rfl rfl
  · exact (frames_astromref_worker_failure_modes _ _).2.2 rfl rfl

/-- Embeds `convsub_photometry_to_ismphot_database` (autoimagesub.py
lines 1790-2037) at the level of its exception structure: the body
(header parsing, naming checks, the two upserts) either completes with a
per-frame success flag or raises; `psycopg2.IntegrityError` is caught
and reported as a per-frame `False`, but the generic `except Exception`
clause ends in a bare `raise`, so every other exception propagates to
the caller. -/
def convsub_photometry_to_ismphot_database (convsubfits : String)
    (body : Except PyErr Bool) : Except PyErr (String × Bool) :=
  match body with
  | .ok b => .ok (convsubfits, b)
  | .error .integrityError => .ok (convsubfits, false)
  | .error e => .error e

/-- Embeds `parallel_convsubphotdb_worker` (autoimagesub.py lines
2041-2052).  The worker has no `try`/`except` and its single statement
calls `convsub_photometry_to_ismphot_databse(convsubphots, **kwargs)`:
both the function name (a misspelling of
`convsub_photometry_to_ismphot_database`) and the variable
`convsubphots` are undefined, so every invocation raises `NameError`
before any work happens. -/
def parallel_convsubphotdb_worker (task : String × Bool) :
    Except PyErr (String × Bool) :=
  .error .nameError

/-- Embeds `parallel_convsubphot_to_db` (autoimagesub.py lines
2056-2092): filter the input list to existing files, return `none` when
nothing is left, otherwise `pool.map` the worker over the tasks. -/
def parallel_convsubphot_to_db (fileExists : String → Bool)
    (convsubfitslist : List String) (overwrite : Bool) :
    Except PyErr (Option (List (String × Bool))) :=
  let tasks := (convsubfitslist.filter fileExists).map (fun f => (f, overwrite))
  if tasks.isEmpty then .ok none
  else (pool_map parallel_convsubphotdb_worker tasks).map some

/-- C2 (divergence at the failing input): a two-item
`parallel_convsubphot_to_db` batch over existing files aborts with
`NameError` — the worker wrapper's misspelled call raises out of
`pool.map`, so neither item gets a per-item failure entry and the second
item's result is dropped along with the first. -/
theorem parallel_convsubphot_to_db_aborts :
    parallel_convsubphot_to_db (fun _ => true)
      ["subtracted-oneframeref-1-377741_5-xtrns.fits",
       "subtracted-oneframeref-1-377742_5-xtrns.fits"] false =
    .error .nameError := rfl

/-- Row of the `photrefs` registry table as read by
`get_combined_photref` (only the columns the difference-imaging worker
consumes are kept). -/
structure PhotrefRow where
  field : String
  projectid : String
  ccd : Int
  photreftype : String
  isactive : Bool
  framepath : String
  convolveregpath : String
  cmrawphotpath : String
deriving DecidableEq, Repr

/-- Predicate of the `where` clause of `get_combined_photref`: active
row matching the requested (projectid, ccd, field, photreftype). -/
def photrefMatches (projectid field : String) (ccd : Int)
    (photreftype : String) (r : PhotrefRow) : Bool :=
  r.isactive && r.projectid == projectid && r.ccd == ccd &&
    r.field == field && r.photreftype == photreftype

/-- Embeds `get_combined_photref` (autoimagesub.py lines 1552-1627):
select the active `photrefs` row for the key.  When `fetchone` finds no
row it returns `None`, the `zip(..., rows)` raises `TypeError`, and the
`except` clause of this function re-raises after printing, so a missing
reference propagates as an exception to the caller. -/
def get_combined_photref (registry : List PhotrefRow)
    (projectid field : String) (ccd : Int) (photreftype : String) :
    Except PyErr PhotrefRow :=
  match registry.find? (photrefMatches projectid field ccd photreftype) with
  | some r => .ok r
  | none => .error .typeError

/-- Environment of one `xtrnsfits_convsubphot_worker` call: what the
header read, the convolution/subtraction step and the photometry step
would produce for this frame. -/
structure ConvSubEnv where
  /-- the frame's (field, ccd, projectid) as parsed from header and
  filename; `none` when parsing raises -/
  headerIdent : Option (String × Int × String)
  /-- output path of `ism.subframe_convolution_worker` when convolution
  and subtraction succeed and the file exists -/
  convsub : Option String
  /-- output path of `ism.subframe_photometry_worker` when differential
  photometry succeeds and the file exists -/
  subphot : Option String
deriving DecidableEq, Repr

/-- Embeds `xtrnsfits_convsubphot_worker` (autoimagesub.py lines
1635-1731).  Returns the worker's `(frame, result)` pair together with
the list of output files written for this frame.  The whole body runs
inside `try`; the `TypeError` raised out of `get_combined_photref` for a
missing active reference is caught and yields `(frame, None)` before any
subtraction or photometry output is produced. -/
def xtrnsfits_convsubphot_worker (registry : List PhotrefRow)
    (env : ConvSubEnv) (frame : String) (photreftype : String) :
    (String × Option (Option String × Option String)) × List String :=
  match env.headerIdent with
  | none => ((frame, none), [])
  | some (field, ccd, projectid) =>
    match get_combined_photref registry projectid field ccd photreftype with
    | .error _ => ((frame, none), [])
    | .ok _ =>
      match env.convsub with
      | none => ((frame, none), [])
      | some cs =>
        match env.subphot with
        | some sp => ((frame, some (some cs, some sp)), [cs, sp])
        | none => ((frame, some (some cs, none)), [cs])

/-- Embeds `xtrnsfits_convsubphot` (autoimagesub.py lines 1736-1782):
`pool.map` of the worker over the existing input frames. -/
def xtrnsfits_convsubphot (registry : List PhotrefRow)
    (tasks : List (ConvSubEnv × String)) (photreftype : String) :
    Except PyErr
      (List ((String × Option (Option String × Option String)) × List String)) :=
  pool_map
    (fun t => .ok (xtrnsfits_convsubphot_worker registry t.1 t.2 photreftype))
    tasks

/-- C8: a frame whose (projectid, field, ccd) key has no active combined
photometric reference of the requested type makes
`xtrnsfits_convsubphot_worker` terminate with the no-reference failure:
it returns the frame paired with `None` and writes no subtraction or
photometry output files. -/
theorem xtrnsfits_convsubphot_worker_noref (registry : List PhotrefRow)
    (env : ConvSubEnv) (frame photreftype : String)
    (field projectid : String) (ccd : Int)
    (hident : env.headerIdent = some (field, ccd, projectid))
    (hnoref :
      registry.find? (photrefMatches projectid field ccd photreftype) = none) :
    xtrnsfits_convsubphot_worker registry env frame photreftype =
      ((frame, none), []) := by
  simp [xtrnsfits_convsubphot_worker, get_combined_photref, hident, hnoref]

/-- Witness for C8: a registry whose only row is inactive for the
requested key, a concrete frame environment, and the resulting
null-result, no-files outcome. -/
theorem xtrnsfits_convsubphot_worker_noref_witness :
    ([⟨"G1234_500", "12", 5, "oneframe", false, "ref.fits", "ref.reg",
       "ref.cmrawphot"⟩] :
        List PhotrefRow).find?
      (photrefMatches "12" "G1234_500" 5 "oneframe") = none ∧
    xtrnsfits_convsubphot_worker
      [⟨"G1234_500", "12", 5, "oneframe", false, "ref.fits", "ref.reg",
        "ref.cmrawphot"⟩]
      ⟨some ("G1234_500", 5, "12"), some "sub.fits", some "sub.iphot"⟩
      "1-377741_5-xtrns.fits" "oneframe" =
      (("1-377741_5-xtrns.fits", none), []) := by
  constructor
  · decide
  · exact xtrnsfits_convsubphot_worker_noref _ _ _ _ "G1234_500" "12" 5
      rfl (by decide)

/-- Environment of one `generate_combined_photref` call: existence and
success of every intermediate artifact the function checks before it
touches the photrefs registry. -/
structure CombPhotrefEnv where
  /-- `FRAMEREGEX` matched the master frame's basename (the field, ccd,
  projectid of the reference could be resolved) -/
  masterHeaderOk : Bool
  /-- the master frame's `.fistar` source list exists -/
  masterFistarExists : Bool
  /-- the convolution registration file exists after `ism.genreg` -/
  regfileMade : Bool
  /-- per-candidate: the convolved output of that photref candidate
  exists (the function aborts only when all of these fail) -/
  convolvedOk : List Bool
  /-- the combined (stacked) frame was produced and exists -/
  combineOk : Bool
  /-- the field catalog for this field and photreftype exists -/
  fovcatExists : Bool
  /-- calibration photometry on the combined frame produced an existing
  cmrawphot file -/
  photometryOk : Bool
  /-- `get_frame_info` extracted quality metrics from the combined frame -/
  frameinfoOk : Bool
  /-- the sqlite insert into `photrefs` committed (otherwise the insert
  raises, the transaction is rolled back, and no row is written) -/
  dbInsertOk : Bool
deriving DecidableEq, Repr

/-- Embeds `generate_combined_photref` (autoimagesub.py lines
1194-1548) at the level of its artifact checks and registry write.  The
first component is `some ()` when the function returns the updated
photrefinfo dict and `none` when it bails out early with a bare
`return`; the second component records whether a row was inserted into
the `photrefs` registry table.  Each early `return` in the source
corresponds to one guard here, in source order. -/
def generate_combined_photref (env : CombPhotrefEnv)
    (photreftype : String) : Option Unit × Bool :=
  if env.masterHeaderOk then
    if env.masterFistarExists then
      if env.regfileMade then
        if (env.convolvedOk.filter (fun b => b)).isEmpty then (none, false)
        else
          if env.combineOk then
            if photreftype = "oneframe" ∨ photreftype = "onehour" ∨
                photreftype = "onenight" then
              if env.fovcatExists then
                if env.photometryOk then
                  if env.frameinfoOk then (some (), env.dbInsertOk)
                  else (none, false)
                else (none, false)
              else (none, false)
            else (none, false)
          else (none, false)
      else (none, false)
    else (none, false)
  else (none, false)

/-- C3: `generate_combined_photref` is all-or-nothing with respect to
the photrefs registry.  If any intermediate artifact is missing — the
master frame's source list, the registration file, every convolved
candidate, the combined frame, the field catalog, the calibration
photometry, or the combined frame's quality metrics — it returns early
and writes no registry row; conversely a registry row is written only
when all of those artifacts exist. -/
theorem generate_combined_photref_all_or_nothing (env : CombPhotrefEnv)
    (photreftype : String) :
    (env.masterFistarExists = false ∨ env.regfileMade = false ∨
     (env.convolvedOk.filter (fun b => b)).isEmpty = true ∨
     env.combineOk = false ∨ env.fovcatExists = false ∨
     env.photometryOk = false ∨ env.frameinfoOk = false →
      generate_combined_photref env photreftype = (none, false)) ∧
    ((generate_combined_photref env photreftype).2 = true →
      env.masterFistarExists = true ∧ env.regfileMade = true ∧
      (env.convolvedOk.filter (fun b => b)).isEmpty = false ∧
      env.combineOk = true ∧ env.fovcatExists = true ∧
      env.photometryOk = true ∧ env.frameinfoOk = true) := by
  unfold generate_combined_photref
  constructor
  · intro h
    split_ifs with h1 h2 h3 h4 h5 h6 h7 h8 h9 <;>
      simp_all
  · intro h
    revert h
    split_ifs with h1 h2 h3 h4 h5 h6 h7 h8 h9 <;>
      simp_all

/-- Witness for C3: with the calibration photometry missing the
function returns with no insert, and a fully successful environment
shows the insert-implies-artifacts direction at a satisfiable input. -/
theorem generate_combined_photref_all_or_nothing_witness :
    generate_combined_photref
      ⟨true, true, true, [true, true], true, true, false, true, true⟩
      "oneframe" = (none, false) ∧
    (generate_combined_photref
      ⟨true, true, true, [true, true], true, true, true, true, true⟩
      "oneframe").2 = true ∧
    ([true, true].filter (fun b => b)).isEmpty = false := by
  refine ⟨?_, by decide, by decide⟩
  exact (generate_combined_photref_all_or_nothing _ _).1
    (Or.inr (Or.inr (Or.inr (Or.inr (Or.inr (Or.inl rfl))))))

/-- Comparison of a possibly-NaN value against a bound, embedding numpy
semantics: every comparison against NaN is false. -/
def oLt (a : Option Int) (b : Int) : Bool :=
  match a with
  | none => false
  | some x => decide (x < b)

/-- Executable absolute value (`np.fabs` on one number). -/
def fabs (x : Int) : Int :=
  if x < 0 then -x else x

/-- Absolute value of a possibly-NaN value (`np.fabs`, NaN-preserving). -/
def oAbs (a : Option Int) : Option Int :=
  a.map fabs

/-- Sort comparator for possibly-NaN keys, embedding `np.argsort`
semantics: NaN sorts after every number in ascending order. -/
def oLe : Option Int → Option Int → Bool
  | none, none => true
  | none, some _ => false
  | some _, none => true
  | some x, some y => decide (x ≤ y)

/-- Per-frame record assembled by `fitslist_frameinfo` (autoimagesub.py
lines 812-852): the frame path and the twelve quality metrics of
`get_frame_info`, each `none` when the value is NaN. -/
structure CandInfo where
  frame : String
  zenithdist : Option Int
  moondist : Option Int
  moonelev : Option Int
  moonphase : Option Int
  hourangle : Option Int
  ngoodobjects : Option Int
  medmagerr : Option Int
  magerrmad : Option Int
  medsrcbgv : Option Int
  stdsrcbgv : Option Int
  medsval : Option Int
  meddval : Option Int
deriving DecidableEq, Repr

/-- Record for a frame whose fiphot or fistar sidecar was missing or
unreadable: `get_frame_info` returned `(frame, None)` and every quality
field becomes NaN. -/
def allNaN (f : String) : CandInfo :=
  ⟨f, none, none, none, none, none, none, none, none, none, none, none, none⟩

/-- Assembly step of `fitslist_frameinfo`: one row per worker result, in
input order; the frame path always comes from the result's first
component and a `None` info dict contributes NaN for every metric. -/
def fitslist_frameinfo_rows (results : List (String × Option CandInfo)) :
    List CandInfo :=
  results.map (fun r =>
    match r.2 with
    | some ci => { ci with frame := r.1 }
    | none => allNaN r.1)

/-- Embeds the caching shell of `fitslist_frameinfo` (autoimagesub.py
lines 769-860).  The on-disk cache file is keyed by
`md5(repr(fitslist))` — a hash of exactly the input frame list, with no
threshold parameters in the key — so the cache is modelled as an
association list keyed by the frame list itself.  An existing entry is
reused unless `forcecollectinfo` is set, in which case the metrics are
recollected (`collect`) and written back. -/
def fitslist_frameinfo (cache : List (List String × List CandInfo))
    (fitslist : List String) (forcecollectinfo : Bool)
    (collect : List String → List CandInfo) :
    List CandInfo × List (List String × List CandInfo) :=
  match cache.lookup fitslist with
  | some fi =>
    if forcecollectinfo then
      (collect fitslist, (fitslist, collect fitslist) :: cache)
    else (fi, cache)
  | none => (collect fitslist, (fitslist, collect fitslist) :: cache)

/-- Threshold and size parameters of
`generate_photref_candidates_from_xtrns`. -/
structure SelectParams where
  minframes : Nat
  maxhourangle : Int
  maxmoonphase : Int
  maxmoonelev : Int
  maxzenithdist : Int
  maxbackgroundstdev : Int
  maxbackgroundmedian : Int
deriving DecidableEq, Repr

/-- Initial per-frame filter of the selector (autoimagesub.py lines
922-962): `selectind = haind & moonind & zenithind & backgroundstdevind`
(note the source does not include the background-median indicator in
this stage). -/
def passesInitial (p : SelectParams) (c : CandInfo) : Bool :=
  oLt (oAbs c.hourangle) p.maxhourangle &&
  (oLt (oAbs c.moonphase) p.maxmoonphase || oLt c.moonelev p.maxmoonelev) &&
  oLt c.zenithdist p.maxzenithdist &&
  oLt c.stdsrcbgv p.maxbackgroundstdev

/-- Frames surviving the initial filter, in input order (boolean-mask
indexing preserves order). -/
def selectedFrames (p : SelectParams) (fi : List CandInfo) :
    List CandInfo :=
  fi.filter (passesInitial p)

/-- Stage 1 of the selector: rank the surviving frames by median S
descending (`np.argsort(selected_medsvalue)[::-1]`) and keep the top
`2 * minframes`. -/
def stage1Frames (p : SelectParams) (fi : List CandInfo) :
    List CandInfo :=
  ((sortBy (fun a b => oLe a.medsval b.medsval)
      (selectedFrames p fi)).reverse).take (2 * p.minframes)

/-- Stage 2 of the selector: re-rank the stage-1 subset by |median D|
ascending. -/
def stage2Frames (p : SelectParams) (fi : List CandInfo) :
    List CandInfo :=
  sortBy (fun a b => oLe (oAbs a.meddval) (oAbs b.meddval))
    (stage1Frames p fi)

/-- Final background filter of the selector (autoimagesub.py lines
1006-1008): median background and background stdev both under their
maxima. -/
def passesFinal (p : SelectParams) (c : CandInfo) : Bool :=
  oLt c.medsrcbgv p.maxbackgroundmedian &&
  oLt c.stdsrcbgv p.maxbackgroundstdev

/-- Final candidate list (autoimagesub.py line 1010):
`stage2_frames[final_selector_ind][:minframes]`. -/
def finalFrames (p : SelectParams) (fi : List CandInfo) :
    List CandInfo :=
  ((stage2Frames p fi).filter (passesFinal p)).take p.minframes

/-- Embeds `np.nanargmin`: index of the smallest non-NaN value (first
occurrence on ties), or `none` — a raised `ValueError` — when the list
is empty or all-NaN. -/
def nanargminAux : List (Option Int) → Nat → Option (Nat × Int)
  | [], _ => none
  | none :: rest, i => nanargminAux rest (i + 1)
  | some x :: rest, i =>
    match nanargminAux rest (i + 1) with
    | none => some (i, x)
    | some (j, y) => if x ≤ y then some (i, x) else some (j, y)

/-- Index form of `np.nanargmin`. -/
def nanargmin (l : List (Option Int)) : Option Nat :=
  (nanargminAux l 0).map (fun r => r.1)

/-- Quick-look JPEG name for a selected photref frame
(`JPEG-PHOTREF-<basename>.jpg` inside the selection cache directory). -/
def jpegName (c : CandInfo) : String :=
  String.append "JPEG-PHOTREF-" c.frame

/-- Result record of `generate_photref_candidates_from_xtrns`.  The
success dict carries `minframes`; the graceful-failure dict omits that
key (modelled as `none`) and nulls the master/candidate/JPEG entries,
while both carry the frame list, the collected per-frame metrics and the
six threshold parameters. -/
structure PhotrefInfo where
  framelist : List String
  frameinfo : List CandInfo
  minframes : Option Nat
  maxhourangle : Int
  maxmoonphase : Int
  maxmoonelev : Int
  maxzenithdist : Int
  maxbackgroundstdev : Int
  maxbackgroundmedian : Int
  masterphotref : Option String
  photrefs : Option (List String)
  photrefjpegs : Option (List String)
deriving DecidableEq, Repr

/-- Selection stage of `generate_photref_candidates_from_xtrns`
(autoimagesub.py lines 917-1087): filter, rank twice, filter again,
truncate to `minframes`, then pick the master as the frame of minimum
median S among the final candidates.  `np.nanargmin` raising on an
empty or all-NaN final set is the exception caught by the surrounding
`try`, producing the graceful-failure record. -/
def photrefSelection (fitsfiles : List String) (p : SelectParams)
    (frameinfo : List CandInfo) : PhotrefInfo :=
  let final := finalFrames p frameinfo
  match nanargmin (final.map (fun c => c.medsval)) with
  | some i =>
    { framelist := fitsfiles
      frameinfo := frameinfo
      minframes := some p.minframes
      maxhourangle := p.maxhourangle
      maxmoonphase := p.maxmoonphase
      maxmoonelev := p.maxmoonelev
      maxzenithdist := p.maxzenithdist
      maxbackgroundstdev := p.maxbackgroundstdev
      maxbackgroundmedian := p.maxbackgroundmedian
      masterphotref := some ((final.getD i (allNaN "")).frame)
      photrefs := some (final.map (fun c => c.frame))
      photrefjpegs := some (final.map jpegName) }
  | none =>
    { framelist := fitsfiles
      frameinfo := frameinfo
      minframes := none
      maxhourangle := p.maxhourangle
      maxmoonphase := p.maxmoonphase
      maxmoonelev := p.maxmoonelev
      maxzenithdist := p.maxzenithdist
      maxbackgroundstdev := p.maxbackgroundstdev
      maxbackgroundmedian := p.maxbackgroundmedian
      masterphotref := none
      photrefs := none
      photrefjpegs := none }

/-- Embeds `generate_photref_candidates_from_xtrns` (autoimagesub.py
lines 864-1087).  The frame metrics are collected first through
`fitslist_frameinfo` — with the literal `forcecollectinfo=False` of
source line 887, regardless of this function's own `forcecollectinfo`
argument — then the selection cache (keyed by frame list and all
threshold parameters) is consulted, and on a miss (or under
force-refresh) the full selection runs. -/
def generate_photref_candidates_from_xtrns
    (ficache : List (List String × List CandInfo))
    (selcache : List ((List String × SelectParams) × PhotrefInfo))
    (collect : List String → List CandInfo)
    (fitsfiles : List String) (p : SelectParams)
    (forcecollectinfo : Bool) : PhotrefInfo :=
  let frameinfo := (fitslist_frameinfo ficache fitsfiles false collect).1
  match selcache.lookup (fitsfiles, p) with
  | some cached =>
    if forcecollectinfo then photrefSelection fitsfiles p frameinfo
    else cached
  | none => photrefSelection fitsfiles p frameinfo

theorem mem_finalFrames {p : SelectParams} {fi : List CandInfo}
    {c : CandInfo} (h : c ∈ finalFrames p fi) :
    passesInitial p c = true ∧ passesFinal p c = true ∧ c ∈ fi := by
  have h2 : c ∈ (stage2Frames p fi).filter (passesFinal p) :=
    List.mem_of_mem_take h
  have hfin : passesFinal p c = true := (List.mem_filter.mp h2).2
  have h3 : c ∈ stage2Frames p fi := (List.mem_filter.mp h2).1
  have h4 : c ∈ stage1Frames p fi := (mem_sortBy _ _ _).mp h3
  have h5 : c ∈ (sortBy (fun a b => oLe a.medsval b.medsval)
      (selectedFrames p fi)).reverse := List.mem_of_mem_take h4
  have h6 : c ∈ sortBy (fun a b => oLe a.medsval b.medsval)
      (selectedFrames p fi) := List.mem_reverse.mp h5
  have h7 : c ∈ selectedFrames p fi := (mem_sortBy _ _ _).mp h6
  exact ⟨(List.mem_filter.mp h7).2, hfin, (List.mem_filter.mp h7).1⟩

/-- C5: for every frame list and threshold configuration, the final
candidate list of `generate_photref_candidates_from_xtrns` contains at
most `minframes` frames, and every candidate satisfies every configured
threshold: |hourangle| < maxhourangle, (|moonphase| < maxmoonphase or
moonelev < maxmoonelev), zenithdist < maxzenithdist, background stdev <
maxbackgroundstdev, and median background < maxbackgroundmedian; on a
selection-cache miss the returned candidate list is exactly the frames
of `finalFrames`. -/
theorem photref_candidates_bounded_and_thresholded (p : SelectParams)
    (fi : List CandInfo) :
    (finalFrames p fi).length ≤ p.minframes ∧
    (∀ c, c ∈ finalFrames p fi →
      oLt (oAbs c.hourangle) p.maxhourangle = true ∧
      (oLt (oAbs c.moonphase) p.maxmoonphase = true ∨
        oLt c.moonelev p.maxmoonelev = true) ∧
      oLt c.zenithdist p.maxzenithdist = true ∧
      oLt c.stdsrcbgv p.maxbackgroundstdev = true ∧
      oLt c.medsrcbgv p.maxbackgroundmedian = true) ∧
    (∀ ficache selcache collect fitsfiles force,
      List.lookup (fitsfiles, p) selcache = none →
      (generate_photref_candidates_from_xtrns ficache selcache collect
          fitsfiles p force).photrefs = none ∨
      (generate_photref_candidates_from_xtrns ficache selcache collect
          fitsfiles p force).photrefs =
        some ((finalFrames p
          ((fitslist_frameinfo ficache fitsfiles false collect).1)).map
            (fun c => c.frame))) := by
  refine ⟨List.length_take_le _ _, ?_, ?_⟩
  · intro c hc
    obtain ⟨hini, hfin, -⟩ := mem_finalFrames hc
    simp only [passesInitial, Bool.and_eq_true, Bool.or_eq_true] at hini
    simp only [passesFinal, Bool.and_eq_true] at hfin
    tauto
  · intro ficache selcache collect fitsfiles force hmiss
    simp only [generate_photref_candidates_from_xtrns, hmiss]
    unfold photrefSelection
    cases hm : nanargmin ((finalFrames p
        ((fitslist_frameinfo ficache fitsfiles false collect).1)).map
          (fun c => c.medsval)) with
    | none =>
      left
      simp only [hm]
    | some i =>
      right
      simp only [hm]

/-- Default thresholds of `generate_photref_candidates_from_xtrns` with
`minframes = 2`, used for concrete witnesses. -/
def testParams : SelectParams :=
  ⟨2, 3, 25, 0, 30, 10, 1000⟩

/-- Concrete frame passing all thresholds with S = 5 and D = 0.01 (in hundredths: 1). -/
def testFrame0 : CandInfo :=
  ⟨"1-377741_5-xtrns.fits", some 10, some 50, some (-10), some 10, some 1,
   some 5000, some 1, some 2, some 100, some 5, some 5,
   some 1⟩

/-- Concrete frame passing all thresholds with S = 7 and D = -0.3 (in hundredths: -30). -/
def testFrame1 : CandInfo :=
  ⟨"1-377742_5-xtrns.fits", some 10, some 50, some (-10), some 10, some 1,
   some 5000, some 1, some 2, some 100, some 5, some 7,
   some (-30)⟩

/-- Concrete frame passing all thresholds with S = 6 and D = 0.02 (in hundredths: 2). -/
def testFrame2 : CandInfo :=
  ⟨"1-377743_5-xtrns.fits", some 10, some 50, some (-10), some 10, some 1,
   some 5000, some 1, some 2, some 100, some 5, some 6,
   some 2⟩

/-- Witness for C5: on the three-frame scenario with `minframes = 2`
the final candidate list is bounded by 2, frame 0 is a member, every
threshold holds for it, and the cache-miss run of the full generator
returns exactly the final frames. -/
theorem photref_candidates_bounded_witness :
    (finalFrames testParams [testFrame0, testFrame1, testFrame2]).length ≤
      testParams.minframes ∧
    testFrame0 ∈ finalFrames testParams [testFrame0, testFrame1, testFrame2] ∧
    oLt testFrame0.medsrcbgv testParams.maxbackgroundmedian = true ∧
    ((generate_photref_candidates_from_xtrns [] []
        (fun _ => [testFrame0, testFrame1, testFrame2])
        ["1-377741_5-xtrns.fits"] testParams true).photrefs = none ∨
      (generate_photref_candidates_from_xtrns [] []
        (fun _ => [testFrame0, testFrame1, testFrame2])
        ["1-377741_5-xtrns.fits"] testParams true).photrefs =
        some ((finalFrames testParams
          ((fitslist_frameinfo [] ["1-377741_5-xtrns.fits"] false
            (fun _ => [testFrame0, testFrame1, testFrame2])).1)).map
              (fun c => c.frame))) := by
  refine ⟨(photref_candidates_bounded_and_thresholded testParams
      [testFrame0, testFrame1, testFrame2]).1, by decide, ?_, ?_⟩
  · exact ((photref_candidates_bounded_and_thresholded testParams
      [testFrame0, testFrame1, testFrame2]).2.1 testFrame0
        (by decide)).2.2.2.2
  · exact (photref_candidates_bounded_and_thresholded testParams
      [testFrame0, testFrame1, testFrame2]).2.2 [] []
        (fun _ => [testFrame0, testFrame1, testFrame2])
        ["1-377741_5-xtrns.fits"] true rfl

/-- C7: `generate_photref_candidates_from_xtrns` fails gracefully.  On
a selection-cache miss, whenever the filtering and ranking stages leave
an empty final candidate set (so `np.nanargmin` raises inside the
`try`), the function returns — it does not raise — a record that
carries the frame list, the full diagnostic frame metrics and all six
configured threshold parameters, with the master reference, the
candidate list and the candidate JPEG list all `None`. -/
theorem photref_selection_graceful
    (ficache : List (List String × List CandInfo))
    (selcache : List ((List String × SelectParams) × PhotrefInfo))
    (collect : List String → List CandInfo)
    (fitsfiles : List String) (p : SelectParams) (force : Bool)
    (hmiss : List.lookup (fitsfiles, p) selcache = none)
    (hempty : finalFrames p
      ((fitslist_frameinfo ficache fitsfiles false collect).1) = []) :
    generate_photref_candidates_from_xtrns ficache selcache collect
        fitsfiles p force =
      { framelist := fitsfiles
        frameinfo := (fitslist_frameinfo ficache fitsfiles false collect).1
        minframes := none
        maxhourangle := p.maxhourangle
        maxmoonphase := p.maxmoonphase
        maxmoonelev := p.maxmoonelev
        maxzenithdist := p.maxzenithdist
        maxbackgroundstdev := p.maxbackgroundstdev
        maxbackgroundmedian := p.maxbackgroundmedian
        masterphotref := none
        photrefs := none
        photrefjpegs := none } := by
  simp only [generate_photref_candidates_from_xtrns, hmiss]
  unfold photrefSelection
  simp only [hempty, List.map_nil]
  rfl

/-- Witness for C7: with no cache entries and a metrics collector that
returns an empty record set, the generator returns the graceful-failure
record at a concrete input. -/
theorem photref_selection_graceful_witness :
    generate_photref_candidates_from_xtrns [] [] (fun _ => [])
        ["1-377741_5-xtrns.fits"] testParams false =
      { framelist := ["1-377741_5-xtrns.fits"]
        frameinfo := []
        minframes := none
        maxhourangle := 3
        maxmoonphase := 25
        maxmoonelev := 0
        maxzenithdist := 30
        maxbackgroundstdev := 10
        maxbackgroundmedian := 1000
        masterphotref := none
        photrefs := none
        photrefjpegs := none } :=
  photref_selection_graceful [] [] (fun _ => [])
    ["1-377741_5-xtrns.fits"] testParams false rfl rfl

/-- C9: a frame whose fiphot or fistar sidecar is missing or unreadable
(its `get_frame_info` result is `(frame, None)`) contributes an all-NaN
metrics row that keeps the frame path; the all-NaN row fails every
individual threshold indicator of the selector, is excluded from the
initial filter and from the final candidate list of every selection run,
and the frames array of the assembled record retains every input path
in order. -/
theorem frameinfo_nan_rows (results : List (String × Option CandInfo))
    (p : SelectParams) (f : String)
    (hmem : (f, (none : Option CandInfo)) ∈ results) :
    allNaN f ∈ fitslist_frameinfo_rows results ∧
    (fitslist_frameinfo_rows results).map (fun c => c.frame) =
      results.map Prod.fst ∧
    oLt (oAbs (allNaN f).hourangle) p.maxhourangle = false ∧
    (oLt (oAbs (allNaN f).moonphase) p.maxmoonphase ||
      oLt (allNaN f).moonelev p.maxmoonelev) = false ∧
    oLt (allNaN f).zenithdist p.maxzenithdist = false ∧
    oLt (allNaN f).stdsrcbgv p.maxbackgroundstdev = false ∧
    oLt (allNaN f).medsrcbgv p.maxbackgroundmedian = false ∧
    (∀ fi, allNaN f ∉ selectedFrames p fi) ∧
    (∀ fi, allNaN f ∉ finalFrames p fi) := by
  have hfails : passesInitial p (allNaN f) = false := rfl
  refine ⟨?_, ?_, rfl, rfl, rfl, rfl, rfl, ?_, ?_⟩
  · exact List.mem_map_of_mem _ hmem
  · unfold fitslist_frameinfo_rows
    rw [List.map_map]
    apply List.map_congr_left
    intro r _
    cases h : r.2 <;> simp [h, allNaN]
  · intro fi hmem'
    have : passesInitial p (allNaN f) = true :=
      (List.mem_filter.mp hmem').2
    rw [hfails] at this
    exact Bool.false_ne_true this
  · intro fi hmem'
    have : passesInitial p (allNaN f) = true := (mem_finalFrames hmem').1
    rw [hfails] at this
    exact Bool.false_ne_true this

/-- Witness for C9: a concrete two-frame result list whose second frame
has no readable sidecars; its row is all-NaN, its path is retained, and
it is excluded from a concrete selection run. -/
theorem frameinfo_nan_rows_witness :
    allNaN "1-377742_5.fits" ∈ fitslist_frameinfo_rows
      [("1-377741_5.fits", some testFrame0), ("1-377742_5.fits", none)] ∧
    (fitslist_frameinfo_rows
      [("1-377741_5.fits", some testFrame0),
       ("1-377742_5.fits", none)]).map (fun c => c.frame) =
      ["1-377741_5.fits", "1-377742_5.fits"] ∧
    allNaN "1-377742_5.fits" ∉
      finalFrames testParams (fitslist_frameinfo_rows
        [("1-377741_5.fits", some testFrame0),
         ("1-377742_5.fits", none)]) := by
  have h := frameinfo_nan_rows
    [("1-377741_5.fits", some testFrame0), ("1-377742_5.fits", none)]
    testParams "1-377742_5.fits" (by decide)
  exact ⟨h.1, h.2.1, h.2.2.2.2.2.2.2.2 _⟩

/-- Stale cached metrics used in the C4 divergence run. -/
def staleInfo : List CandInfo := [allNaN "stale-metrics"]

/-- Freshly collected metrics used in the C4 divergence run. -/
def freshInfo : List CandInfo := [allNaN "fresh-metrics"]

/-- Outcome of `generate_astromref`: the value returned or exception
raised, the files copied into the reference directory, and whether a row
was inserted into the `astromrefs` registry. -/
structure AstromrefGenOutcome where
  result : Except PyErr (Option Unit)
  copies : List String
  inserted : Bool
deriving Repr

/-- Embeds `generate_astromref` (autoimagesub.py lines 246-402).

`select_astromref_frame` returns a frame path (or `None`), modelled by
`selected`.  When a reference is selected and `field`, `ccd` and
`projectid` are all supplied, the source takes the branch that only
builds the `frameinfo` dict; the copy/insert code and every assignment
to `returnval` sit in the other branches, so the final
`return returnval` raises `UnboundLocalError`.  When any of the three is
missing, the source indexes the selected path string as a dict
(`astromref['astromref']`), which raises `TypeError` before any copy.
When no reference is selected, `returnval` is set to `None` and
returned. -/
def generate_astromref (fileExists : String → Bool)
    (fitsfiles : List String) (selected : Option String)
    (field ccd projectid : Option String) :
    AstromrefGenOutcome :=
  let goodfits := fitsfiles.filter fileExists
  if goodfits.isEmpty then ⟨.ok none, [], false⟩
  else
    match selected with
    | none => ⟨.ok none, [], false⟩
    | some _ =>
      match field, ccd, projectid with
      | some _, some _, some _ => ⟨.error .unboundLocal, [], false⟩
      | _, _, _ => ⟨.error .typeError, [], false⟩

/-- C10: when `field`, `ccd` and `projectid` are all supplied and a
reference frame is selected, `generate_astromref` copies no files and
inserts no registry row: it takes the branch that only records the
supplied identity and then terminates with an unbound-local error
instead of returning the selected reference. -/
theorem generate_astromref_unbound_local (fileExists : String → Bool)
    (fitsfiles : List String) (aref f c pid : String)
    (hgood : (fitsfiles.filter fileExists).isEmpty = false) :
    generate_astromref fileExists fitsfiles (some aref)
        (some f) (some c) (some pid) =
      ⟨.error .unboundLocal, [], false⟩ := by
  simp [generate_astromref, hgood]

/-- Witness for C10: a concrete call with one existing input frame, a
selected reference, and all three identity arguments supplied ends in
the unbound-local outcome with no copies and no insert. -/
theorem generate_astromref_unbound_local_witness :
    generate_astromref (fun _ => true) ["1-377741_5.fits"]
        (some "1-377741_5.fits") (some "G1234_500") (some "5") (some "12") =
      ⟨.error .unboundLocal, [], false⟩ :=
  generate_astromref_unbound_local (fun _ => true) ["1-377741_5.fits"]
    "1-377741_5.fits" "G1234_500" "5" "12" (by decide)

/-- C4 (divergence at the failing input): `fitslist_frameinfo` itself
reuses its cache entry when force-refresh is off and recomputes when it
is on, but `generate_photref_candidates_from_xtrns` passes the literal
`forcecollectinfo=False` (source line 887), so a candidate-selection run
with force-refresh requested still returns the stale cached metrics
instead of the recollected ones. -/
theorem frameinfo_force_refresh_ignored :
    (fitslist_frameinfo [(["1-377741_5-xtrns.fits"], staleInfo)]
      ["1-377741_5-xtrns.fits"] false (fun _ => freshInfo)).1 = staleInfo ∧
    (fitslist_frameinfo [(["1-377741_5-xtrns.fits"], staleInfo)]
      ["1-377741_5-xtrns.fits"] true (fun _ => freshInfo)).1 = freshInfo ∧
    (generate_photref_candidates_from_xtrns
      [(["1-377741_5-xtrns.fits"], staleInfo)] [] (fun _ => freshInfo)
      ["1-377741_5-xtrns.fits"] testParams true).frameinfo = staleInfo ∧
    staleInfo ≠ freshInfo := by
  refine ⟨by decide, by decide, by decide, by decide⟩

end AIS
